import Mathlib

/-!
Verification development for the multi-tenant ledger service.

The Go source is shallowly embedded:
  * `Account`, `Transaction`, `Operation`, `Event` mirror the structs of the
    domain model file, with Go `int64` fields modelled as `Int` together with
    explicit two's-complement wraparound (`wrap64`) at every arithmetic step,
    and Go `uint64` identifier fields modelled as `Nat` (no arithmetic is ever
    performed on them).
  * `Account.Play` mirrors the playback engine `func (account Account) Play`.
    Go returns `(PlayedOutcome{}, err)` on failure; this is modelled by the
    `PlayResult.err` constructor, which carries no played state, exactly as the
    zero-valued struct carries none.  The `logger.Fatalf` process abort on an
    accounting inconsistency is modelled as the distinguished outcome
    `PlayError.fatalInconsistency`.
  * The store gateway of `db.go` is modelled as pure functions over a `Store`
    value; each write primitive is recorded as a `StoreCall` and its SQL
    semantics is given by `applyCall`.
  * `HandleExecuteOperationsWithContext`, `processNewTransaction` and
    `processExistingTransaction` mirror `execute_operations.go`, acting on a
    decoded request; the transactional unit is modelled by returning the
    original store (rollback) on every non-committed path.
-/

set_option maxHeartbeats 1000000

/-- Two's-complement wraparound of a mathematical integer into the signed
64-bit range `[-2^63, 2^63)`, the semantics of every Go `int64` operation. -/
def wrap64 (x : Int) : Int := (x + 2 ^ 63) % 2 ^ 64 - 2 ^ 63

/-- The four operation kinds (`TxOp` in the source: Hold, Release, Debit,
Credit). -/
inductive TxOp where
  | hold
  | release
  | debit
  | credit
deriving DecidableEq, Repr

/-- The `Account` struct: `uint64` identifiers as `Nat`, `int64` arithmetic
fields as `Int`. -/
structure Account where
  accountPK : Nat := 0
  accountID : Nat := 0
  userARI : String := ""
  lastPlayedSequence : Int := 0
  runningBalance : Int := 0
  runningHeld : Int := 0
deriving DecidableEq, Repr

/-- The `Transaction` struct. -/
structure Transaction where
  transactionPK : Nat := 0
  transactionID : Nat := 0
  tenant : String := ""
  accountID : Nat := 0
  heldAmountInCents : Int := 0
  debitedAmountInCents : Int := 0
  creditedAmountInCents : Int := 0
  lastPlayedSequence : Int := 0
deriving DecidableEq, Repr

/-- The `Operation` struct. -/
structure Operation where
  operationPK : Nat := 0
  operationID : Nat := 0
  tenant : String := ""
  transactionID : Nat := 0
  operationType : String := ""
  amountInCents : Int := 0
  sequence : Int := 0
deriving DecidableEq, Repr

/-- The `Event` struct. -/
structure Event where
  eventPK : Nat := 0
  eventID : Nat := 0
  tenant : String := ""
  accountID : Nat := 0
  transactionID : Nat := 0
  operationID : Nat := 0
  runningBalance : Int := 0
  runningHeld : Int := 0
  sequence : Int := 0
deriving DecidableEq, Repr

/-- `func (o Operation) Type() (TxOp, error)`: decode the wire string; an
unknown string is the error case, modelled as `none`. -/
def Operation.Type (o : Operation) : Option TxOp :=
  match o.operationType with
  | "HOLD" => some TxOp.hold
  | "RELEASE" => some TxOp.release
  | "DEBIT" => some TxOp.debit
  | "CREDIT" => some TxOp.credit
  | _ => none

/-- The `PlayedOutcome` struct returned by a successful playback. -/
structure PlayedOutcome where
  playedAccount : Account := {}
  playedTransaction : Transaction := {}
  playedOperations : List Operation := []
  playedEvents : List Event := []
deriving DecidableEq, Repr

/-- The failure modes of `Play`: the four sentinel errors of the source, the
wrapped `Operation.Type` error, and the `logger.Fatalf` process abort taken on
an accounting inconsistency (`running_held < 0` while the transaction's held
amount is non-negative). -/
inductive PlayError where
  | negativeBalance
  | negativeHold
  | accountOpLimit
  | transactionOpLimit
  | typeError
  | fatalInconsistency
deriving DecidableEq, Repr

/-- Result of `Play`.  Go returns the pair `(PlayedOutcome, error)` where every
error return carries the zero-valued `PlayedOutcome{}`; `err` therefore carries
only the error kind and no played state. -/
inductive PlayResult where
  | ok (outcome : PlayedOutcome)
  | err (e : PlayError)
deriving DecidableEq, Repr

/-- Paired playback state: the `playedAccount` and `playedTransaction` local
copies of the loop. -/
abbrev PlayState := Account × Transaction

/-- The `switch operationType` arithmetic of the loop body: the transaction
and account deltas of one operation, each `+=` / `-=` performed in wrapping
signed 64-bit arithmetic. -/
def applyTxOp (t : TxOp) (amount : Int) (s : PlayState) : PlayState :=
  match t with
  | TxOp.hold =>
      ({ s.1 with runningHeld := wrap64 (s.1.runningHeld + amount) },
       { s.2 with heldAmountInCents := wrap64 (s.2.heldAmountInCents + amount) })
  | TxOp.release =>
      ({ s.1 with runningHeld := wrap64 (s.1.runningHeld - amount) },
       { s.2 with heldAmountInCents := wrap64 (s.2.heldAmountInCents - amount) })
  | TxOp.debit =>
      ({ s.1 with runningBalance := wrap64 (s.1.runningBalance - amount) },
       { s.2 with debitedAmountInCents := wrap64 (s.2.debitedAmountInCents + amount) })
  | TxOp.credit =>
      ({ s.1 with runningBalance := wrap64 (s.1.runningBalance + amount) },
       { s.2 with creditedAmountInCents := wrap64 (s.2.creditedAmountInCents + amount) })

/-- One iteration of the `for i := range operations` loop body of `Play`:
decode the type, apply the delta, run the four guard checks in source order
(with the `logger.Fatalf` inconsistency abort between the balance and hold
checks), then bump both sequence counters and build the played operation and
its event.  On success it returns the updated state together with the recorded
`playedOperations[i]` and `playedEvents[i]` entries. -/
def playStep (accountID : Nat) (playedAccount : Account)
    (playedTransaction : Transaction) (op : Operation) :
    Except PlayError (Account × Transaction × Operation × Event) :=
  match op.Type with
  | none => Except.error PlayError.typeError
  | some operationType =>
    let s := applyTxOp operationType op.amountInCents (playedAccount, playedTransaction)
    let pa := s.1
    let pt := s.2
    if pa.runningBalance < 0 then Except.error PlayError.negativeBalance
    else if pa.runningHeld < 0 ∧ 0 ≤ pt.heldAmountInCents then
      Except.error PlayError.fatalInconsistency
    else if pt.heldAmountInCents < 0 then Except.error PlayError.negativeHold
    else if pa.lastPlayedSequence < 0 then Except.error PlayError.accountOpLimit
    else if pt.lastPlayedSequence < 0 then Except.error PlayError.transactionOpLimit
    else
      let pa2 := { pa with lastPlayedSequence := wrap64 (pa.lastPlayedSequence + 1) }
      let pt2 := { pt with lastPlayedSequence := wrap64 (pt.lastPlayedSequence + 1) }
      Except.ok (pa2, pt2,
        { op with sequence := pt2.lastPlayedSequence },
        { accountID := accountID, sequence := pa2.lastPlayedSequence,
          runningBalance := pa2.runningBalance, runningHeld := pa2.runningHeld })

/-- The playback loop of `Play`, accumulating the `playedOperations` and
`playedEvents` slices in order. -/
def playLoop (accountID : Nat) (playedAccount : Account)
    (playedTransaction : Transaction) (operations : List Operation)
    (playedOperations : List Operation) (playedEvents : List Event) : PlayResult :=
  match operations with
  | [] => PlayResult.ok
      { playedAccount := playedAccount, playedTransaction := playedTransaction,
        playedOperations := playedOperations, playedEvents := playedEvents }
  | op :: rest =>
    match playStep accountID playedAccount playedTransaction op with
    | Except.error e => PlayResult.err e
    | Except.ok (pa2, pt2, playedOp, ev) =>
        playLoop accountID pa2 pt2 rest
          (playedOperations ++ [playedOp]) (playedEvents ++ [ev])

/-- `func (account Account) Play(transaction, operations)`: the pure playback
engine.  The account and transaction are taken by value; the event rows carry
the original `account.AccountID`. -/
def Account.Play (account : Account) (transaction : Transaction)
    (operations : List Operation) : PlayResult :=
  playLoop account.accountID account transaction operations [] []

/-- Delta of one operation on the playback state, resolved through
`Operation.Type` (identity on the dead unknown-type branch, which `Play`
never reaches because the type error returns first). -/
def deltaOp (s : PlayState) (op : Operation) : PlayState :=
  match op.Type with
  | some t => applyTxOp t op.amountInCents s
  | none => s

/-- Full effect of one successfully played operation on the state: the delta
followed by the two sequence bumps. -/
def nextState (s : PlayState) (op : Operation) : PlayState :=
  let d := deltaOp s op
  ({ d.1 with lastPlayedSequence := wrap64 (d.1.lastPlayedSequence + 1) },
   { d.2 with lastPlayedSequence := wrap64 (d.2.lastPlayedSequence + 1) })

/-- State reached after playing a whole list of operations. -/
def runOps (s : PlayState) (operations : List Operation) : PlayState :=
  operations.foldl nextState s

/-- All guard checks of one loop iteration pass on this state and operation:
the type decodes, and after the delta the running balance, running held,
transaction held, and both sequence counters are non-negative. -/
def stepOK (s : PlayState) (op : Operation) : Prop :=
  (op.Type).isSome ∧
  0 ≤ (deltaOp s op).1.runningBalance ∧
  0 ≤ (deltaOp s op).1.runningHeld ∧
  0 ≤ (deltaOp s op).2.heldAmountInCents ∧
  0 ≤ (deltaOp s op).1.lastPlayedSequence ∧
  0 ≤ (deltaOp s op).2.lastPlayedSequence

instance (s : PlayState) (op : Operation) : Decidable (stepOK s op) := by
  unfold stepOK; infer_instance

/-- Every prefix step of the list passes all guard checks. -/
def stepsOK (s : PlayState) : List Operation → Prop
  | [] => True
  | op :: rest => stepOK s op ∧ stepsOK (nextState s op) rest

/-- The `playedOperations` slice produced by a successful playback: each input
operation stamped with the post-bump transaction sequence. -/
def playedOpsSpec (s : PlayState) : List Operation → List Operation
  | [] => []
  | op :: rest =>
      { op with sequence := (nextState s op).2.lastPlayedSequence } ::
        playedOpsSpec (nextState s op) rest

/-- The event row recorded for one played operation: the account's post-bump
sequence and the post-delta running balance and held. -/
def mkEvent (accountID : Nat) (s : PlayState) : Event :=
  { accountID := accountID, sequence := s.1.lastPlayedSequence,
    runningBalance := s.1.runningBalance, runningHeld := s.1.runningHeld }

/-- The `playedEvents` slice produced by a successful playback. -/
def playedEventsSpec (accountID : Nat) (s : PlayState) : List Operation → List Event
  | [] => []
  | op :: rest =>
      mkEvent accountID (nextState s op) :: playedEventsSpec accountID (nextState s op) rest

/-- Sum of the amounts of the operations of one kind, as an unbounded
integer. -/
def sumAmounts (t : TxOp) (operations : List Operation) : Int :=
  ((operations.filter (fun op => op.Type == some t)).map
    (fun op => op.amountInCents)).sum

example : wrap64 (2 ^ 63 - 1 + 1) = -(2 ^ 63) := by decide
example : wrap64 5 = 5 := by decide

example :
    Account.Play {} {} [{ operationType := "CREDIT", amountInCents := 7 }] =
      PlayResult.ok
        { playedAccount := { lastPlayedSequence := 1, runningBalance := 7 },
          playedTransaction := { creditedAmountInCents := 7, lastPlayedSequence := 1 },
          playedOperations := [{ operationType := "CREDIT", amountInCents := 7, sequence := 1 }],
          playedEvents := [{ sequence := 1, runningBalance := 7 }] } := by decide

example :
    Account.Play {} {} [{ operationType := "DEBIT", amountInCents := 100 },
      { operationType := "CREDIT", amountInCents := 100 }] =
      PlayResult.err PlayError.negativeBalance := by decide

theorem wrap64_modEq (x : Int) : Int.ModEq (2 ^ 64) (wrap64 x) x := by
  unfold wrap64 Int.ModEq
  omega

theorem wrap64_eq_self {x : Int} (h1 : -(2 ^ 63) ≤ x) (h2 : x < 2 ^ 63) :
    wrap64 x = x := by
  unfold wrap64
  omega

/-- Successful single-step characterisation: one loop iteration succeeds
exactly when every guard check passes, and then it produces the
`nextState` account and transaction, the sequence-stamped operation, and the
snapshot event. -/
theorem playStep_ok_iff (accountID : Nat) (s : PlayState) (op : Operation)
    (out : Account × Transaction × Operation × Event) :
    playStep accountID s.1 s.2 op = Except.ok out ↔
      stepOK s op ∧
        out = ((nextState s op).1, (nextState s op).2,
          { op with sequence := (nextState s op).2.lastPlayedSequence },
          mkEvent accountID (nextState s op)) := by
  obtain ⟨a0, t0⟩ := s
  cases hty : op.Type with
  | none => simp [playStep, stepOK, hty]
  | some t =>
      simp only [playStep, stepOK, deltaOp, nextState, mkEvent, hty,
        Option.isSome_some, true_and]
      split_ifs with h1 h2 h3 h4 h5
      · simp only [false_iff, not_and]
        intro hOK
        omega
      · simp only [false_iff, not_and]
        intro hOK
        omega
      · simp only [false_iff, not_and]
        intro hOK
        omega
      · simp only [false_iff, not_and]
        intro hOK
        omega
      · simp only [false_iff, not_and]
        intro hOK
        omega
      · simp only [Except.ok.injEq]
        constructor
        · intro h
          refine ⟨by omega, h.symm⟩
        · intro ⟨_, h⟩
          exact h.symm

/-- Single-step failure characterisations used by the rejection-order
claims: the balance check fires first, and the hold check fires whenever the
post-delta balance is fine but the transaction's held amount is negative. -/
theorem playStep_negativeBalance (accountID : Nat) (s : PlayState)
    (op : Operation) (hty : (op.Type).isSome)
    (hb : (deltaOp s op).1.runningBalance < 0) :
    playStep accountID s.1 s.2 op = Except.error PlayError.negativeBalance := by
  obtain ⟨a0, t0⟩ := s
  cases hty' : op.Type with
  | none => rw [hty'] at hty; simp at hty
  | some t =>
      simp only [playStep, hty']
      simp only [deltaOp, hty'] at hb
      rw [if_pos hb]

theorem playStep_negativeHold (accountID : Nat) (s : PlayState)
    (op : Operation) (hty : (op.Type).isSome)
    (hb : 0 ≤ (deltaOp s op).1.runningBalance)
    (hh : (deltaOp s op).2.heldAmountInCents < 0) :
    playStep accountID s.1 s.2 op = Except.error PlayError.negativeHold := by
  obtain ⟨a0, t0⟩ := s
  cases hty' : op.Type with
  | none => rw [hty'] at hty; simp at hty
  | some t =>
      simp only [playStep, hty']
      simp only [deltaOp, hty'] at hb hh
      rw [if_neg (by omega), if_neg (by omega), if_pos hh]

/-- Unfolding lemma: a successful step reduces the loop by one operation. -/
theorem playLoop_cons_ok (accountID : Nat) (s : PlayState) (op : Operation)
    (rest : List Operation) (accOps : List Operation) (accEvents : List Event)
    (h : stepOK s op) :
    playLoop accountID s.1 s.2 (op :: rest) accOps accEvents =
      playLoop accountID (nextState s op).1 (nextState s op).2 rest
        (accOps ++ [{ op with sequence := (nextState s op).2.lastPlayedSequence }])
        (accEvents ++ [mkEvent accountID (nextState s op)]) := by
  have hstep := (playStep_ok_iff accountID s op
    ((nextState s op).1, (nextState s op).2,
      { op with sequence := (nextState s op).2.lastPlayedSequence },
      mkEvent accountID (nextState s op))).mpr ⟨h, rfl⟩
  simp only [playLoop, hstep]

/-- Unfolding lemma: a failing step fails the whole loop. -/
theorem playLoop_cons_err (accountID : Nat) (s : PlayState) (op : Operation)
    (rest : List Operation) (accOps : List Operation) (accEvents : List Event)
    (e : PlayError) (h : playStep accountID s.1 s.2 op = Except.error e) :
    playLoop accountID s.1 s.2 (op :: rest) accOps accEvents = PlayResult.err e := by
  simp only [playLoop, h]

/-- Decomposition of a successful playback: the final account and transaction
are the fold of `nextState`, the recorded operations and events are the
specification lists, and every step passed all guard checks. -/
theorem playLoop_ok (accountID : Nat) :
    ∀ (operations : List Operation) (s : PlayState) (accOps : List Operation)
      (accEvents : List Event) (po : PlayedOutcome),
      playLoop accountID s.1 s.2 operations accOps accEvents = PlayResult.ok po →
      po.playedAccount = (runOps s operations).1 ∧
      po.playedTransaction = (runOps s operations).2 ∧
      po.playedOperations = accOps ++ playedOpsSpec s operations ∧
      po.playedEvents = accEvents ++ playedEventsSpec accountID s operations ∧
      stepsOK s operations
  | [], s, accOps, accEvents, po, h => by
      simp only [playLoop, PlayResult.ok.injEq] at h
      subst h
      simp [runOps, playedOpsSpec, playedEventsSpec, stepsOK]
  | op :: rest, s, accOps, accEvents, po, h => by
      rcases hstep : playStep accountID s.1 s.2 op with e | out
      · rw [playLoop_cons_err accountID s op rest accOps accEvents e hstep] at h
        cases h
      · obtain ⟨hOK, hout⟩ := (playStep_ok_iff accountID s op out).mp hstep
        subst hout
        rw [playLoop_cons_ok accountID s op rest accOps accEvents hOK] at h
        obtain ⟨h1, h2, h3, h4, h5⟩ := playLoop_ok accountID rest (nextState s op) _ _ po h
        refine ⟨h1, h2, ?_, ?_, hOK, h5⟩
        · rw [h3]
          simp [playedOpsSpec]
        · rw [h4]
          simp [playedEventsSpec]

/-- `Play` phrased through the decomposition lemma. -/
theorem Play_ok (account : Account) (transaction : Transaction)
    (operations : List Operation) (po : PlayedOutcome)
    (h : account.Play transaction operations = PlayResult.ok po) :
    po.playedAccount = (runOps (account, transaction) operations).1 ∧
    po.playedTransaction = (runOps (account, transaction) operations).2 ∧
    po.playedOperations = playedOpsSpec (account, transaction) operations ∧
    po.playedEvents = playedEventsSpec account.accountID (account, transaction) operations ∧
    stepsOK (account, transaction) operations := by
  have := playLoop_ok account.accountID operations (account, transaction) [] [] po h
  simpa using this

@[simp]
theorem nextState_runningBalance (s : PlayState) (op : Operation) :
    (nextState s op).1.runningBalance = (deltaOp s op).1.runningBalance := rfl

@[simp]
theorem nextState_runningHeld (s : PlayState) (op : Operation) :
    (nextState s op).1.runningHeld = (deltaOp s op).1.runningHeld := rfl

@[simp]
theorem nextState_heldAmount (s : PlayState) (op : Operation) :
    (nextState s op).2.heldAmountInCents = (deltaOp s op).2.heldAmountInCents := rfl

@[simp]
theorem nextState_debitedAmount (s : PlayState) (op : Operation) :
    (nextState s op).2.debitedAmountInCents = (deltaOp s op).2.debitedAmountInCents := rfl

@[simp]
theorem nextState_creditedAmount (s : PlayState) (op : Operation) :
    (nextState s op).2.creditedAmountInCents = (deltaOp s op).2.creditedAmountInCents := rfl

@[simp]
theorem nextState_account_lps (s : PlayState) (op : Operation) :
    (nextState s op).1.lastPlayedSequence =
      wrap64 ((deltaOp s op).1.lastPlayedSequence + 1) := rfl

@[simp]
theorem nextState_transaction_lps (s : PlayState) (op : Operation) :
    (nextState s op).2.lastPlayedSequence =
      wrap64 ((deltaOp s op).2.lastPlayedSequence + 1) := rfl

@[simp]
theorem deltaOp_account_lps (s : PlayState) (op : Operation) :
    (deltaOp s op).1.lastPlayedSequence = s.1.lastPlayedSequence := by
  simp only [deltaOp]
  rcases htype : op.Type with _ | t
  · rfl
  · cases t <;> rfl

@[simp]
theorem deltaOp_transaction_lps (s : PlayState) (op : Operation) :
    (deltaOp s op).2.lastPlayedSequence = s.2.lastPlayedSequence := by
  simp only [deltaOp]
  rcases htype : op.Type with _ | t
  · rfl
  · cases t <;> rfl

theorem sumAmounts_nil (t : TxOp) : sumAmounts t [] = 0 := rfl

theorem sumAmounts_cons (t : TxOp) (op : Operation) (rest : List Operation) :
    sumAmounts t (op :: rest) =
      (if op.Type == some t then op.amountInCents else 0) + sumAmounts t rest := by
  unfold sumAmounts
  rcases h : (op.Type == some t) with _ | _
  · simp [List.filter_cons, h]
  · simp [List.filter_cons, h]

/-- One-step effect of an operation on the five aggregate fields, as
congruences modulo `2^64`: the field it touches gains the amount, the others
are unchanged. -/
theorem nextState_aggregates (s : PlayState) (op : Operation) :
    Int.ModEq (2 ^ 64) (nextState s op).2.heldAmountInCents
        (s.2.heldAmountInCents +
          ((if op.Type == some TxOp.hold then op.amountInCents else 0) -
            (if op.Type == some TxOp.release then op.amountInCents else 0))) ∧
    Int.ModEq (2 ^ 64) (nextState s op).2.debitedAmountInCents
        (s.2.debitedAmountInCents +
          (if op.Type == some TxOp.debit then op.amountInCents else 0)) ∧
    Int.ModEq (2 ^ 64) (nextState s op).2.creditedAmountInCents
        (s.2.creditedAmountInCents +
          (if op.Type == some TxOp.credit then op.amountInCents else 0)) ∧
    Int.ModEq (2 ^ 64) (nextState s op).1.runningBalance
        (s.1.runningBalance +
          ((if op.Type == some TxOp.credit then op.amountInCents else 0) -
            (if op.Type == some TxOp.debit then op.amountInCents else 0))) ∧
    Int.ModEq (2 ^ 64) (nextState s op).1.runningHeld
        (s.1.runningHeld +
          ((if op.Type == some TxOp.hold then op.amountInCents else 0) -
            (if op.Type == some TxOp.release then op.amountInCents else 0))) := by
  rcases htype : op.Type with _ | t
  · simp only [nextState_heldAmount, nextState_debitedAmount, nextState_creditedAmount,
      nextState_runningBalance, nextState_runningHeld, deltaOp, htype]
    refine ⟨?_, ?_, ?_, ?_, ?_⟩ <;>
      simp [Int.ModEq]
  · cases t <;>
    · simp only [nextState_heldAmount, nextState_debitedAmount, nextState_creditedAmount,
        nextState_runningBalance, nextState_runningHeld, deltaOp, htype, applyTxOp]
      refine ⟨?_, ?_, ?_, ?_, ?_⟩ <;>
        simp [Int.ModEq, wrap64] <;> omega

/-- The aggregate invariant over a whole playback run, modulo `2^64`: held
gains `Σ HOLD − Σ RELEASE`, debited gains `Σ DEBIT`, credited gains
`Σ CREDIT`, the running balance gains `Σ CREDIT − Σ DEBIT`, and the running
held gains `Σ HOLD − Σ RELEASE`. -/
theorem runOps_aggregates : ∀ (operations : List Operation) (s : PlayState),
    Int.ModEq (2 ^ 64) (runOps s operations).2.heldAmountInCents
        (s.2.heldAmountInCents +
          (sumAmounts TxOp.hold operations - sumAmounts TxOp.release operations)) ∧
    Int.ModEq (2 ^ 64) (runOps s operations).2.debitedAmountInCents
        (s.2.debitedAmountInCents + sumAmounts TxOp.debit operations) ∧
    Int.ModEq (2 ^ 64) (runOps s operations).2.creditedAmountInCents
        (s.2.creditedAmountInCents + sumAmounts TxOp.credit operations) ∧
    Int.ModEq (2 ^ 64) (runOps s operations).1.runningBalance
        (s.1.runningBalance +
          (sumAmounts TxOp.credit operations - sumAmounts TxOp.debit operations)) ∧
    Int.ModEq (2 ^ 64) (runOps s operations).1.runningHeld
        (s.1.runningHeld +
          (sumAmounts TxOp.hold operations - sumAmounts TxOp.release operations))
  | [], s => by
      simp only [runOps, List.foldl_nil, sumAmounts_nil]
      refine ⟨?_, ?_, ?_, ?_, ?_⟩ <;> simp [Int.ModEq]
  | op :: rest, s => by
      obtain ⟨ih1, ih2, ih3, ih4, ih5⟩ := runOps_aggregates rest (nextState s op)
      obtain ⟨st1, st2, st3, st4, st5⟩ := nextState_aggregates s op
      have hrun : runOps s (op :: rest) = runOps (nextState s op) rest := rfl
      rw [hrun]
      simp only [sumAmounts_cons]
      refine ⟨?_, ?_, ?_, ?_, ?_⟩
      · have h := ih1.trans (Int.ModEq.add_right _ st1)
        have he : s.2.heldAmountInCents +
            ((if op.Type == some TxOp.hold then op.amountInCents else 0) -
              (if op.Type == some TxOp.release then op.amountInCents else 0)) +
            (sumAmounts TxOp.hold rest - sumAmounts TxOp.release rest) =
            s.2.heldAmountInCents +
              ((if op.Type == some TxOp.hold then op.amountInCents else 0) +
                  sumAmounts TxOp.hold rest -
                ((if op.Type == some TxOp.release then op.amountInCents else 0) +
                  sumAmounts TxOp.release rest)) := by ring
        exact he ▸ h
      · have h := ih2.trans (Int.ModEq.add_right _ st2)
        have he : s.2.debitedAmountInCents +
            (if op.Type == some TxOp.debit then op.amountInCents else 0) +
            sumAmounts TxOp.debit rest =
            s.2.debitedAmountInCents +
              ((if op.Type == some TxOp.debit then op.amountInCents else 0) +
                sumAmounts TxOp.debit rest) := by ring
        exact he ▸ h
      · have h := ih3.trans (Int.ModEq.add_right _ st3)
        have he : s.2.creditedAmountInCents +
            (if op.Type == some TxOp.credit then op.amountInCents else 0) +
            sumAmounts TxOp.credit rest =
            s.2.creditedAmountInCents +
              ((if op.Type == some TxOp.credit then op.amountInCents else 0) +
                sumAmounts TxOp.credit rest) := by ring
        exact he ▸ h
      · have h := ih4.trans (Int.ModEq.add_right _ st4)
        have he : s.1.runningBalance +
            ((if op.Type == some TxOp.credit then op.amountInCents else 0) -
              (if op.Type == some TxOp.debit then op.amountInCents else 0)) +
            (sumAmounts TxOp.credit rest - sumAmounts TxOp.debit rest) =
            s.1.runningBalance +
              ((if op.Type == some TxOp.credit then op.amountInCents else 0) +
                  sumAmounts TxOp.credit rest -
                ((if op.Type == some TxOp.debit then op.amountInCents else 0) +
                  sumAmounts TxOp.debit rest)) := by ring
        exact he ▸ h
      · have h := ih5.trans (Int.ModEq.add_right _ st5)
        have he : s.1.runningHeld +
            ((if op.Type == some TxOp.hold then op.amountInCents else 0) -
              (if op.Type == some TxOp.release then op.amountInCents else 0)) +
            (sumAmounts TxOp.hold rest - sumAmounts TxOp.release rest) =
            s.1.runningHeld +
              ((if op.Type == some TxOp.hold then op.amountInCents else 0) +
                  sumAmounts TxOp.hold rest -
                ((if op.Type == some TxOp.release then op.amountInCents else 0) +
                  sumAmounts TxOp.release rest)) := by ring
        exact he ▸ h

/-- The guard checks of the final step force the non-negativity of the three
invariant fields of the final state. -/
theorem stepsOK_final_nonneg : ∀ (operations : List Operation) (s : PlayState),
    operations ≠ [] → stepsOK s operations →
    0 ≤ (runOps s operations).1.runningBalance ∧
    0 ≤ (runOps s operations).1.runningHeld ∧
    0 ≤ (runOps s operations).2.heldAmountInCents
  | [op], s, _, hOK => by
      obtain ⟨h, -⟩ := hOK
      obtain ⟨-, hb, hrh, hh, -, -⟩ := h
      have hrun : runOps s [op] = nextState s op := rfl
      rw [hrun]
      exact ⟨by simpa using hb, by simpa using hrh, by simpa using hh⟩
  | op :: op2 :: rest, s, _, hOK =>
      stepsOK_final_nonneg (op2 :: rest) (nextState s op) (by simp) hOK.2

/-- While the counters stay below `2^63`, the sequence bumps never wrap and
both counters advance by exactly the number of operations. -/
theorem runOps_lps : ∀ (operations : List Operation) (s : PlayState),
    0 ≤ s.1.lastPlayedSequence →
    s.1.lastPlayedSequence + (operations.length : Int) < 2 ^ 63 →
    0 ≤ s.2.lastPlayedSequence →
    s.2.lastPlayedSequence + (operations.length : Int) < 2 ^ 63 →
    (runOps s operations).1.lastPlayedSequence =
        s.1.lastPlayedSequence + (operations.length : Int) ∧
    (runOps s operations).2.lastPlayedSequence =
        s.2.lastPlayedSequence + (operations.length : Int)
  | [], s => by
      intro h1 h2 h3 h4
      simp [runOps]
  | op :: rest, s => by
      intro h1 h2 h3 h4
      simp only [List.length_cons] at h2 h4
      have hlen : (0 : Int) ≤ (rest.length : Int) := Int.ofNat_nonneg _
      have ha : (nextState s op).1.lastPlayedSequence = s.1.lastPlayedSequence + 1 := by
        simp only [nextState_account_lps, deltaOp_account_lps]
        exact wrap64_eq_self (by omega) (by push_cast at h2; omega)
      have ht : (nextState s op).2.lastPlayedSequence = s.2.lastPlayedSequence + 1 := by
        simp only [nextState_transaction_lps, deltaOp_transaction_lps]
        exact wrap64_eq_self (by omega) (by push_cast at h4; omega)
      have IH := runOps_lps rest (nextState s op)
        (by omega) (by push_cast at h2 ⊢; omega) (by omega) (by push_cast at h4 ⊢; omega)
      have hrun : runOps s (op :: rest) = runOps (nextState s op) rest := rfl
      rw [hrun]
      obtain ⟨iha, iht⟩ := IH
      rw [iha, iht, ha, ht]
      simp only [List.length_cons]
      push_cast
      constructor <;> ring

/-- While the transaction counter stays below `2^63`, the recorded operation
sequences are the arithmetic progression starting right after the input
counter. -/
theorem playedOpsSpec_sequences : ∀ (operations : List Operation) (s : PlayState),
    0 ≤ s.2.lastPlayedSequence →
    s.2.lastPlayedSequence + (operations.length : Int) < 2 ^ 63 →
    (playedOpsSpec s operations).map (fun o => o.sequence) =
      (List.range operations.length).map
        (fun i : Nat => s.2.lastPlayedSequence + (i : Int) + 1)
  | [], s => by
      intro h1 h2
      simp [playedOpsSpec]
  | op :: rest, s => by
      intro h1 h2
      simp only [List.length_cons] at h2
      have hlen : (0 : Int) ≤ (rest.length : Int) := Int.ofNat_nonneg _
      have ht : (nextState s op).2.lastPlayedSequence = s.2.lastPlayedSequence + 1 := by
        simp only [nextState_transaction_lps, deltaOp_transaction_lps]
        exact wrap64_eq_self (by omega) (by push_cast at h2; omega)
      have IH := playedOpsSpec_sequences rest (nextState s op)
        (by omega) (by push_cast at h2 ⊢; omega)
      simp only [playedOpsSpec, List.map_cons, List.length_cons,
        List.range_succ_eq_map, List.map_map]
      refine congrArg₂ List.cons (by rw [ht]; push_cast; ring) ?_
      rw [IH, ht]
      refine List.map_congr_left ?_
      intro i hi
      simp only [Function.comp_apply]
      push_cast
      ring

/-- While the account counter stays below `2^63`, the recorded event
sequences are the arithmetic progression starting right after the input
counter. -/
theorem playedEventsSpec_sequences :
    ∀ (operations : List Operation) (accountID : Nat) (s : PlayState),
    0 ≤ s.1.lastPlayedSequence →
    s.1.lastPlayedSequence + (operations.length : Int) < 2 ^ 63 →
    (playedEventsSpec accountID s operations).map (fun e => e.sequence) =
      (List.range operations.length).map
        (fun i : Nat => s.1.lastPlayedSequence + (i : Int) + 1)
  | [], accountID, s => by
      intro h1 h2
      simp [playedEventsSpec]
  | op :: rest, accountID, s => by
      intro h1 h2
      simp only [List.length_cons] at h2
      have hlen : (0 : Int) ≤ (rest.length : Int) := Int.ofNat_nonneg _
      have ha : (nextState s op).1.lastPlayedSequence = s.1.lastPlayedSequence + 1 := by
        simp only [nextState_account_lps, deltaOp_account_lps]
        exact wrap64_eq_self (by omega) (by push_cast at h2; omega)
      have IH := playedEventsSpec_sequences rest accountID (nextState s op)
        (by omega) (by push_cast at h2 ⊢; omega)
      simp only [playedEventsSpec, List.map_cons, List.length_cons,
        List.range_succ_eq_map, List.map_map]
      refine congrArg₂ List.cons ?_ ?_
      · simp only [mkEvent]
        rw [ha]
        push_cast
        ring
      · rw [IH, ha]
        refine List.map_congr_left ?_
        intro i hi
        simp only [Function.comp_apply]
        push_cast
        ring

/-- Each recorded event snapshots the running balance and running held of the
state reached immediately after its operation. -/
theorem playedEventsSpec_snapshots :
    ∀ (operations : List Operation) (accountID : Nat) (s : PlayState),
    (playedEventsSpec accountID s operations).map
        (fun e => (e.runningBalance, e.runningHeld)) =
      (List.range operations.length).map
        (fun i => ((runOps s (operations.take (i + 1))).1.runningBalance,
          (runOps s (operations.take (i + 1))).1.runningHeld))
  | [], accountID, s => by simp [playedEventsSpec]
  | op :: rest, accountID, s => by
      have IH := playedEventsSpec_snapshots rest accountID (nextState s op)
      simp only [playedEventsSpec, List.map_cons, List.length_cons,
        List.range_succ_eq_map, List.map_map]
      refine congrArg₂ List.cons ?_ ?_
      · simp only [mkEvent, List.take_succ_cons, List.take_zero]
        rfl
      · rw [IH]
        refine List.map_congr_left ?_
        intro i hi
        simp only [Function.comp_apply, List.take_succ_cons]
        rfl

/-- One operation of the decoded `executeOperationsRequest` body. -/
structure operationRequest where
  operationType : String := ""
  amountInCents : Int := 0
deriving DecidableEq, Repr

/-- The decoded `executeOperationsRequest` body (`uint64` identifiers as
`Nat`; an absent JSON field decodes to the zero value). -/
structure executeOperationsRequest where
  accountID : Nat := 0
  tenant : String := ""
  transactionID : Nat := 0
  operations : List operationRequest := []
deriving DecidableEq, Repr

/-- The `executeOperationsResponse` body; Go leaves unset struct fields at
their zero values. -/
structure executeOperationsResponse where
  error : String := ""
  account : Account := {}
  transaction : Transaction := {}
deriving DecidableEq, Repr

/-- The durable store: the four tables plus the counter from which the store
assigns external transaction identifiers. -/
structure Store where
  accounts : List Account := []
  transactions : List Transaction := []
  operations : List Operation := []
  events : List Event := []
  nextTransactionID : Nat := 1
deriving DecidableEq, Repr

/-- A store-gateway primitive invocation issued by the coordinator, in call
order. -/
inductive StoreCall where
  | lockAccount (accountID : Nat)
  | getTransaction (tenant : String) (transactionID : Nat)
  | createTransactionAndOperation (transaction : Transaction)
      (operation : Operation) (event : Event)
  | addOperationToTransaction (transaction : Transaction)
      (operation : Operation) (event : Event)
  | addOperationAndUpdateTransaction (transaction : Transaction)
      (operation : Operation) (event : Event)
  | updateAccount (account : Account)
deriving DecidableEq, Repr

/-- `LockAccountWithContext`: `SELECT ... FROM accounts WHERE account_id = $1
FOR UPDATE`; a missing row is the error case (`none`). -/
def LockAccountWithContext (s : Store) (accountID : Nat) : Option Account :=
  s.accounts.find? (fun a => a.accountID == accountID)

/-- `GetTransactionWithContext`: `SELECT ... FROM transactions JOIN operations
USING(transaction_id, tenant) WHERE tenant = $1 AND transaction_id = $2`; the
join means a transaction without any operation row is not found.  There is no
filter on `account_id`. -/
def GetTransactionWithContext (s : Store) (tenant : String)
    (transactionID : Nat) : Option Transaction :=
  s.transactions.find? (fun t =>
    t.tenant == tenant && t.transactionID == transactionID &&
      s.operations.any (fun o =>
        o.transactionID == transactionID && o.tenant == tenant))

/-- SQL semantics of one write primitive against the store, from `db.go`:
`CreateTransactionAndOperationWithContext` inserts the transaction row
(assigning its external identifier) plus its first operation and event;
`AddOperationToTransactionWithContext` inserts one operation and its event;
`AddOperationAndUpdateTransactionWithContext` additionally updates the
transaction's aggregate columns, and its chained CTE inserts nothing when no
transaction row matches `(tenant, transaction_id)`;
`UpdateAccountWithContext` updates the three mutable account columns.  The
operation and event rows take their `tenant`, `transaction_id` and the event's
`account_id` from the transaction argument, as in the SQL. -/
def applyCall (s : Store) : StoreCall → Store
  | StoreCall.lockAccount _ => s
  | StoreCall.getTransaction _ _ => s
  | StoreCall.createTransactionAndOperation txn op ev =>
      let assigned := s.nextTransactionID
      { s with
        transactions := s.transactions ++ [{ txn with transactionID := assigned }],
        operations := s.operations ++
          [{ op with tenant := txn.tenant, transactionID := assigned }],
        events := s.events ++
          [{ ev with
              tenant := txn.tenant, accountID := txn.accountID,
              transactionID := assigned }],
        nextTransactionID := assigned + 1 }
  | StoreCall.addOperationToTransaction txn op ev =>
      { s with
        operations := s.operations ++
          [{ op with tenant := txn.tenant, transactionID := txn.transactionID }],
        events := s.events ++
          [{ ev with
              tenant := txn.tenant, accountID := txn.accountID,
              transactionID := txn.transactionID }] }
  | StoreCall.addOperationAndUpdateTransaction txn op ev =>
      let matched := s.transactions.any (fun t =>
        t.tenant == txn.tenant && t.transactionID == txn.transactionID)
      { s with
        transactions := s.transactions.map (fun t =>
          if t.tenant == txn.tenant && t.transactionID == txn.transactionID then
            { t with
                heldAmountInCents := txn.heldAmountInCents,
                debitedAmountInCents := txn.debitedAmountInCents,
                creditedAmountInCents := txn.creditedAmountInCents,
                lastPlayedSequence := txn.lastPlayedSequence }
          else t),
        operations := if matched then s.operations ++
            [{ op with tenant := txn.tenant, transactionID := txn.transactionID }]
          else s.operations,
        events := if matched then s.events ++
            [{ ev with
                tenant := txn.tenant, accountID := txn.accountID,
                transactionID := txn.transactionID }]
          else s.events }
  | StoreCall.updateAccount account =>
      { s with accounts := s.accounts.map (fun a =>
          if a.accountID == account.accountID then
            { a with
                lastPlayedSequence := account.lastPlayedSequence,
                runningBalance := account.runningBalance,
                runningHeld := account.runningHeld }
          else a) }

/-- Apply a sequence of store calls in order. -/
def applyCalls (s : Store) (calls : List StoreCall) : Store :=
  calls.foldl applyCall s

/-- The request operations converted to domain `Operation` values, as both
process functions do: only the type and amount are populated. -/
def requestOperations (req : executeOperationsRequest) : List Operation :=
  req.operations.map (fun o =>
    ({ operationType := o.operationType, amountInCents := o.amountInCents } : Operation))

/-- Go error-string of each playback failure, per the sentinel error values
and the wrapping in `Play`. -/
def PlayError.goMessage : PlayError → String
  | PlayError.negativeBalance =>
      "invalid order of operations, results in negative account balance"
  | PlayError.negativeHold =>
      "invalid order of operations, results in negatively held amount"
  | PlayError.accountOpLimit => "account limit on operations reached"
  | PlayError.transactionOpLimit => "transaction limit on operations reached"
  | PlayError.typeError => "error getting operation type: unknown operation type"
  | PlayError.fatalInconsistency => "accounting inconsistency, triage needed"

/-- The persistence loop shared by both process functions for the operations
after the first branch decision: every non-final operation goes through
`AddOperationToTransactionWithContext` and the final one through
`AddOperationAndUpdateTransactionWithContext` (flushing the aggregates). -/
def persistTailCalls (txn : Transaction) : List (Operation × Event) → List StoreCall
  | [] => []
  | [z] => [StoreCall.addOperationAndUpdateTransaction txn z.1 z.2]
  | z :: rest =>
      StoreCall.addOperationToTransaction txn z.1 z.2 :: persistTailCalls txn rest

/-- `processNewTransaction`: build a blank transaction for the request's
account and tenant, play, then persist: the first operation through
`CreateTransactionAndOperationWithContext` (which assigns the transaction
identifier, threaded into every later call and the response), the remaining
operations through the tail loop, and finally
`UpdateAccountWithContext` with the played account.  Returns the playback
error unchanged when playback fails (before any write). -/
def processNewTransaction (s : Store) (req : executeOperationsRequest)
    (account : Account) :
    Except PlayError (executeOperationsResponse × List StoreCall × Store) :=
  let transaction : Transaction := { accountID := req.accountID, tenant := req.tenant }
  match account.Play transaction (requestOperations req) with
  | PlayResult.err e => Except.error e
  | PlayResult.ok po =>
    match po.playedOperations.zip po.playedEvents with
    | [] =>
      let calls := [StoreCall.updateAccount po.playedAccount]
      Except.ok ({ account := po.playedAccount, transaction := po.playedTransaction },
        calls, applyCalls s calls)
    | z :: rest =>
      let playedTransaction :=
        { po.playedTransaction with transactionID := s.nextTransactionID }
      let calls :=
        StoreCall.createTransactionAndOperation po.playedTransaction z.1 z.2 ::
          persistTailCalls playedTransaction rest ++
            [StoreCall.updateAccount po.playedAccount]
      Except.ok ({ account := po.playedAccount, transaction := playedTransaction },
        calls, applyCalls s calls)

/-- `processExistingTransaction`: play against the loaded transaction, then
persist every non-final operation through
`AddOperationToTransactionWithContext`, the final one through
`AddOperationAndUpdateTransactionWithContext`, and finally
`UpdateAccountWithContext` with the played account. -/
def processExistingTransaction (s : Store) (req : executeOperationsRequest)
    (account : Account) (transaction : Transaction) :
    Except PlayError (executeOperationsResponse × List StoreCall × Store) :=
  match account.Play transaction (requestOperations req) with
  | PlayResult.err e => Except.error e
  | PlayResult.ok po =>
    let calls :=
      persistTailCalls po.playedTransaction (po.playedOperations.zip po.playedEvents) ++
        [StoreCall.updateAccount po.playedAccount]
    Except.ok ({ account := po.playedAccount, transaction := po.playedTransaction },
      calls, applyCalls s calls)

/-- The response written by the handler: `writeHTTPError` with a status code,
the structured 422 business rejection, the 200 success body, or the process
abort reached through the playback inconsistency check. -/
inductive HandlerResponse where
  | httpError (status : Nat) (message : String)
  | business (body : executeOperationsResponse)
  | success (body : executeOperationsResponse)
  | fatal
deriving DecidableEq, Repr

/-- Outcome of one handler run: the response, whether the transactional unit
committed, the store primitives invoked, and the resulting store (unchanged on
every rolled-back path). -/
structure HandlerResult where
  response : HandlerResponse
  committed : Bool
  calls : List StoreCall
  store : Store
deriving DecidableEq, Repr

/-- The input-validation prefix of `HandleExecuteOperationsWithContext`, in
source order: empty tenant, empty operation list, then per operation an empty
type string or a non-positive amount.  Note there is no check on `account_id`
or `transaction_id` and no check that the operation type string is a known
one. -/
def requestValidationError (req : executeOperationsRequest) : Option String :=
  if req.tenant = "" then some "error missing required fields"
  else if req.operations.isEmpty then some "error missing required fields"
  else if req.operations.any (fun op =>
      op.operationType == "" || decide (op.amountInCents ≤ 0)) then
    some "error missing/invalid required fields"
  else none

/-- `HandleExecuteOperationsWithContext` on a decoded request: validate, lock
the account, load the transaction when `transaction_id ≠ 0`, run the matching
process function; a `NegativeBalance` / `NegativeHold` playback rejection is
returned as the structured 422 body carrying the pre-apply account (and the
pre-apply transaction on the existing path) without committing, any other
process error as a 500, and success commits and returns the 200 body. -/
def HandleExecuteOperationsWithContext (s : Store)
    (req : executeOperationsRequest) : HandlerResult :=
  match requestValidationError req with
  | some msg => { response := HandlerResponse.httpError 400 msg,
                  committed := false, calls := [], store := s }
  | none =>
    match LockAccountWithContext s req.accountID with
    | none =>
        { response := HandlerResponse.httpError 500 "error executing database operations",
          committed := false, calls := [StoreCall.lockAccount req.accountID], store := s }
    | some account =>
      if req.transactionID ≠ 0 then
        match GetTransactionWithContext s req.tenant req.transactionID with
        | none =>
            { response := HandlerResponse.httpError 500 "error retrieving transaction data",
              committed := false,
              calls := [StoreCall.lockAccount req.accountID,
                StoreCall.getTransaction req.tenant req.transactionID], store := s }
        | some transaction =>
          match processExistingTransaction s req account transaction with
          | Except.error e =>
            if e = PlayError.negativeBalance ∨ e = PlayError.negativeHold then
              { response := HandlerResponse.business
                  { error := "error playing operations: " ++ e.goMessage,
                    account := account, transaction := transaction },
                committed := false,
                calls := [StoreCall.lockAccount req.accountID,
                  StoreCall.getTransaction req.tenant req.transactionID], store := s }
            else if e = PlayError.fatalInconsistency then
              { response := HandlerResponse.fatal, committed := false,
                calls := [StoreCall.lockAccount req.accountID,
                  StoreCall.getTransaction req.tenant req.transactionID], store := s }
            else
              { response := HandlerResponse.httpError 500
                  ("error processing operations: error playing operations: " ++ e.goMessage),
                committed := false,
                calls := [StoreCall.lockAccount req.accountID,
                  StoreCall.getTransaction req.tenant req.transactionID], store := s }
          | Except.ok (result, calls, s2) =>
              { response := HandlerResponse.success result, committed := true,
                calls := StoreCall.lockAccount req.accountID ::
                  StoreCall.getTransaction req.tenant req.transactionID :: calls,
                store := s2 }
      else
        match processNewTransaction s req account with
        | Except.error e =>
          if e = PlayError.negativeBalance ∨ e = PlayError.negativeHold then
            { response := HandlerResponse.business
                { error := "error playing operations: " ++ e.goMessage,
                  account := account },
              committed := false,
              calls := [StoreCall.lockAccount req.accountID], store := s }
          else if e = PlayError.fatalInconsistency then
            { response := HandlerResponse.fatal, committed := false,
              calls := [StoreCall.lockAccount req.accountID], store := s }
          else
            { response := HandlerResponse.httpError 500
                ("error processing operations: error playing operations: " ++ e.goMessage),
              committed := false,
              calls := [StoreCall.lockAccount req.accountID], store := s }
        | Except.ok (result, calls, s2) =>
            { response := HandlerResponse.success result, committed := true,
              calls := StoreCall.lockAccount req.accountID :: calls, store := s2 }

/-- Claim C1, as stated over unbounded integers, is refuted by 64-bit
wraparound: with the credited aggregate at `2^63 - 1`, one more CREDIT of 1
plays successfully (the balance, held and sequence checks all pass) yet the
played credited amount wraps to `-2^63` instead of `2^63`. -/
def c1xTransaction : Transaction := { creditedAmountInCents := 9223372036854775807 }

def c1xOperation : Operation := { operationType := "CREDIT", amountInCents := 1 }

def c1xOutcome : PlayedOutcome :=
  { playedAccount := { lastPlayedSequence := 1, runningBalance := 1 },
    playedTransaction :=
      { creditedAmountInCents := -9223372036854775808, lastPlayedSequence := 1 },
    playedOperations := [{ operationType := "CREDIT", amountInCents := 1, sequence := 1 }],
    playedEvents := [{ sequence := 1, runningBalance := 1 }] }

/-- C1 counterexample: `Play` succeeds on an all-CREDIT batch but the played
credited amount differs from the input credited amount plus the sum of the
CREDIT amounts, because the 64-bit addition wrapped. -/
theorem claim_C1_counterexample :
    Account.Play {} c1xTransaction [c1xOperation] = PlayResult.ok c1xOutcome ∧
    (∀ op ∈ [c1xOperation], (op.Type).isSome) ∧
    c1xOutcome.playedTransaction.creditedAmountInCents ≠
      c1xTransaction.creditedAmountInCents + sumAmounts TxOp.credit [c1xOperation] := by
  decide

/-- C1 (amended): for every account, transaction and operation list whose
operation types are all in HOLD/RELEASE/DEBIT/CREDIT, if `Play` succeeds then
the played transaction's held amount equals the input held plus
`Σ HOLD - Σ RELEASE`, its debited (resp. credited) amount equals the input
plus `Σ DEBIT` (resp. `Σ CREDIT`), the played account's running balance
equals the input plus `Σ CREDIT - Σ DEBIT` and its running held the input
plus `Σ HOLD - Σ RELEASE` — as signed 64-bit (modulo `2^64`) values; the
unbounded-integer equalities can fail when an aggregate wraps. -/
theorem claim_C1 (account : Account) (transaction : Transaction)
    (operations : List Operation) (po : PlayedOutcome)
    (hty : ∀ op ∈ operations, (op.Type).isSome)
    (hp : account.Play transaction operations = PlayResult.ok po) :
    Int.ModEq (2 ^ 64) po.playedTransaction.heldAmountInCents
        (transaction.heldAmountInCents +
          (sumAmounts TxOp.hold operations - sumAmounts TxOp.release operations)) ∧
    Int.ModEq (2 ^ 64) po.playedTransaction.debitedAmountInCents
        (transaction.debitedAmountInCents + sumAmounts TxOp.debit operations) ∧
    Int.ModEq (2 ^ 64) po.playedTransaction.creditedAmountInCents
        (transaction.creditedAmountInCents + sumAmounts TxOp.credit operations) ∧
    Int.ModEq (2 ^ 64) po.playedAccount.runningBalance
        (account.runningBalance +
          (sumAmounts TxOp.credit operations - sumAmounts TxOp.debit operations)) ∧
    Int.ModEq (2 ^ 64) po.playedAccount.runningHeld
        (account.runningHeld +
          (sumAmounts TxOp.hold operations - sumAmounts TxOp.release operations)) := by
  obtain ⟨hA, hT, -, -, -⟩ := Play_ok account transaction operations po hp
  obtain ⟨g1, g2, g3, g4, g5⟩ := runOps_aggregates operations (account, transaction)
  rw [hA, hT]
  exact ⟨g1, g2, g3, g4, g5⟩

def c1wOperations : List Operation :=
  [{ operationType := "CREDIT", amountInCents := 10 },
   { operationType := "DEBIT", amountInCents := 4 },
   { operationType := "HOLD", amountInCents := 3 },
   { operationType := "RELEASE", amountInCents := 1 }]

def c1wOutcome : PlayedOutcome :=
  { playedAccount :=
      { lastPlayedSequence := 4, runningBalance := 6, runningHeld := 2 },
    playedTransaction :=
      { heldAmountInCents := 2, debitedAmountInCents := 4,
        creditedAmountInCents := 10, lastPlayedSequence := 4 },
    playedOperations :=
      [{ operationType := "CREDIT", amountInCents := 10, sequence := 1 },
       { operationType := "DEBIT", amountInCents := 4, sequence := 2 },
       { operationType := "HOLD", amountInCents := 3, sequence := 3 },
       { operationType := "RELEASE", amountInCents := 1, sequence := 4 }],
    playedEvents :=
      [{ sequence := 1, runningBalance := 10, runningHeld := 0 },
       { sequence := 2, runningBalance := 6, runningHeld := 0 },
       { sequence := 3, runningBalance := 6, runningHeld := 3 },
       { sequence := 4, runningBalance := 6, runningHeld := 2 }] }

/-- Witness for C1 on a concrete four-operation batch. -/
theorem claim_C1_witness :
    Int.ModEq (2 ^ 64) c1wOutcome.playedTransaction.heldAmountInCents
        (({} : Transaction).heldAmountInCents +
          (sumAmounts TxOp.hold c1wOperations - sumAmounts TxOp.release c1wOperations)) ∧
    Int.ModEq (2 ^ 64) c1wOutcome.playedTransaction.debitedAmountInCents
        (({} : Transaction).debitedAmountInCents + sumAmounts TxOp.debit c1wOperations) ∧
    Int.ModEq (2 ^ 64) c1wOutcome.playedTransaction.creditedAmountInCents
        (({} : Transaction).creditedAmountInCents + sumAmounts TxOp.credit c1wOperations) ∧
    Int.ModEq (2 ^ 64) c1wOutcome.playedAccount.runningBalance
        (({} : Account).runningBalance +
          (sumAmounts TxOp.credit c1wOperations - sumAmounts TxOp.debit c1wOperations)) ∧
    Int.ModEq (2 ^ 64) c1wOutcome.playedAccount.runningHeld
        (({} : Account).runningHeld +
          (sumAmounts TxOp.hold c1wOperations - sumAmounts TxOp.release c1wOperations)) :=
  claim_C1 {} {} c1wOperations c1wOutcome (by decide) (by decide)

/-- Inputs refuting claim C2 at the sequence-wraparound boundary. -/
def c2xAccount : Account := { lastPlayedSequence := 9223372036854775807 }

def c2xOperation : Operation := { operationType := "HOLD", amountInCents := 2 }

def c2xOutcome : PlayedOutcome :=
  { playedAccount :=
      { lastPlayedSequence := -9223372036854775808, runningHeld := 2 },
    playedTransaction := { heldAmountInCents := 2, lastPlayedSequence := 1 },
    playedOperations := [{ operationType := "HOLD", amountInCents := 2, sequence := 1 }],
    playedEvents := [{ sequence := -9223372036854775808, runningHeld := 2 }] }

/-- C2 counterexample: with the account counter at `2^63 - 1`, a single valid
operation plays successfully, yet the played account's counter is not the
input counter plus 1 — the increment wrapped to `-2^63`. -/
theorem claim_C2_counterexample :
    Account.Play c2xAccount {} [c2xOperation] = PlayResult.ok c2xOutcome ∧
    (∀ op ∈ [c2xOperation], (op.Type).isSome) ∧
    c2xOutcome.playedAccount.lastPlayedSequence ≠
      c2xAccount.lastPlayedSequence + (([c2xOperation] : List Operation).length : Int) := by
  decide

/-- C2 (amended): for every account, transaction and non-empty list of N
valid operations on which `Play` succeeds, provided both input counters are
non-negative and neither reaches `2^63` within N more steps (so no 64-bit
wraparound occurs), the played account's and transaction's counters advance by
exactly N, the i-th played operation carries sequence
`transaction counter + i + 1`, and the i-th played event carries sequence
`account counter + i + 1` together with the running balance and running held
immediately after that operation's delta.  Both coordinator paths invoke this
same `Play`, so every applied operation advances the account sequence on the
new-transaction and existing-transaction paths alike. -/
theorem claim_C2 (account : Account) (transaction : Transaction)
    (operations : List Operation) (po : PlayedOutcome)
    (hne : operations ≠ [])
    (hty : ∀ op ∈ operations, (op.Type).isSome)
    (hA0 : 0 ≤ account.lastPlayedSequence)
    (hT0 : 0 ≤ transaction.lastPlayedSequence)
    (hA1 : account.lastPlayedSequence + (operations.length : Int) < 2 ^ 63)
    (hT1 : transaction.lastPlayedSequence + (operations.length : Int) < 2 ^ 63)
    (hp : account.Play transaction operations = PlayResult.ok po) :
    po.playedAccount.lastPlayedSequence =
        account.lastPlayedSequence + (operations.length : Int) ∧
    po.playedTransaction.lastPlayedSequence =
        transaction.lastPlayedSequence + (operations.length : Int) ∧
    po.playedOperations.map (fun o => o.sequence) =
      (List.range operations.length).map
        (fun i : Nat => transaction.lastPlayedSequence + (i : Int) + 1) ∧
    po.playedEvents.map (fun e => e.sequence) =
      (List.range operations.length).map
        (fun i : Nat => account.lastPlayedSequence + (i : Int) + 1) ∧
    po.playedEvents.map (fun e => (e.runningBalance, e.runningHeld)) =
      (List.range operations.length).map
        (fun i =>
          (((runOps (account, transaction) (operations.take (i + 1))).1.runningBalance),
            (runOps (account, transaction) (operations.take (i + 1))).1.runningHeld)) := by
  obtain ⟨hA, hT, hOps, hEvs, -⟩ := Play_ok account transaction operations po hp
  refine ⟨?_, ?_, ?_, ?_, ?_⟩
  · rw [hA]
    exact (runOps_lps operations (account, transaction) hA0 hA1 hT0 hT1).1
  · rw [hT]
    exact (runOps_lps operations (account, transaction) hA0 hA1 hT0 hT1).2
  · rw [hOps]
    exact playedOpsSpec_sequences operations (account, transaction) hT0 hT1
  · rw [hEvs]
    exact playedEventsSpec_sequences operations account.accountID (account, transaction)
      hA0 hA1
  · rw [hEvs]
    exact playedEventsSpec_snapshots operations account.accountID (account, transaction)

def c2wAccount : Account := { lastPlayedSequence := 5 }

def c2wTransaction : Transaction := { lastPlayedSequence := 2 }

def c2wOperations : List Operation :=
  [{ operationType := "CREDIT", amountInCents := 3 },
   { operationType := "HOLD", amountInCents := 1 }]

def c2wOutcome : PlayedOutcome :=
  { playedAccount :=
      { lastPlayedSequence := 7, runningBalance := 3, runningHeld := 1 },
    playedTransaction :=
      { heldAmountInCents := 1, creditedAmountInCents := 3, lastPlayedSequence := 4 },
    playedOperations :=
      [{ operationType := "CREDIT", amountInCents := 3, sequence := 3 },
       { operationType := "HOLD", amountInCents := 1, sequence := 4 }],
    playedEvents :=
      [{ sequence := 6, runningBalance := 3, runningHeld := 0 },
       { sequence := 7, runningBalance := 3, runningHeld := 1 }] }

/-- Witness for C2 on a concrete two-operation batch with non-zero input
counters. -/
theorem claim_C2_witness :
    c2wOutcome.playedAccount.lastPlayedSequence =
        c2wAccount.lastPlayedSequence + (c2wOperations.length : Int) ∧
    c2wOutcome.playedTransaction.lastPlayedSequence =
        c2wTransaction.lastPlayedSequence + (c2wOperations.length : Int) ∧
    c2wOutcome.playedOperations.map (fun o => o.sequence) =
      (List.range c2wOperations.length).map
        (fun i : Nat => c2wTransaction.lastPlayedSequence + (i : Int) + 1) ∧
    c2wOutcome.playedEvents.map (fun e => e.sequence) =
      (List.range c2wOperations.length).map
        (fun i : Nat => c2wAccount.lastPlayedSequence + (i : Int) + 1) ∧
    c2wOutcome.playedEvents.map (fun e => (e.runningBalance, e.runningHeld)) =
      (List.range c2wOperations.length).map
        (fun i =>
          (((runOps (c2wAccount, c2wTransaction) (c2wOperations.take (i + 1))).1.runningBalance),
            (runOps (c2wAccount, c2wTransaction) (c2wOperations.take (i + 1))).1.runningHeld)) :=
  claim_C2 c2wAccount c2wTransaction c2wOperations c2wOutcome (by decide) (by decide)
    (by decide) (by decide) (by decide) (by decide) (by decide)

/-- C5: every successful playback (no rejection, no inconsistency abort) of a
non-empty batch re-establishes the non-negativity invariants: the played
account's running balance and running held and the played transaction's held
amount are all non-negative, because the guard checks of the final iteration
bound exactly these three fields and the sequence bumps do not change them. -/
theorem claim_C5 (account : Account) (transaction : Transaction)
    (operations : List Operation) (po : PlayedOutcome)
    (hne : operations ≠ [])
    (hp : account.Play transaction operations = PlayResult.ok po) :
    0 ≤ po.playedAccount.runningBalance ∧
    0 ≤ po.playedAccount.runningHeld ∧
    0 ≤ po.playedTransaction.heldAmountInCents := by
  obtain ⟨hA, hT, -, -, hOK⟩ := Play_ok account transaction operations po hp
  rw [hA, hT]
  exact stepsOK_final_nonneg operations (account, transaction) hne hOK

def c5wOperations : List Operation :=
  [{ operationType := "HOLD", amountInCents := 2000 },
   { operationType := "RELEASE", amountInCents := 2000 }]

def c5wOutcome : PlayedOutcome :=
  { playedAccount := { lastPlayedSequence := 2 },
    playedTransaction := { lastPlayedSequence := 2 },
    playedOperations :=
      [{ operationType := "HOLD", amountInCents := 2000, sequence := 1 },
       { operationType := "RELEASE", amountInCents := 2000, sequence := 2 }],
    playedEvents :=
      [{ sequence := 1, runningHeld := 2000 },
       { sequence := 2, runningHeld := 0 }] }

/-- Witness for C5 on a hold/release pair netting to zero. -/
theorem claim_C5_witness :
    0 ≤ c5wOutcome.playedAccount.runningBalance ∧
    0 ≤ c5wOutcome.playedAccount.runningHeld ∧
    0 ≤ c5wOutcome.playedTransaction.heldAmountInCents :=
  claim_C5 {} {} c5wOperations c5wOutcome (by decide) (by decide)

/-- Inputs exhibiting the sequence-guard ordering of C10. -/
def c10Account : Account := { accountID := 1, lastPlayedSequence := 9223372036854775807 }

def c10Operation : Operation := { operationType := "CREDIT", amountInCents := 1 }

def c10Outcome : PlayedOutcome :=
  { playedAccount :=
      { accountID := 1, lastPlayedSequence := -9223372036854775808, runningBalance := 1 },
    playedTransaction := { creditedAmountInCents := 1, lastPlayedSequence := 1 },
    playedOperations := [{ operationType := "CREDIT", amountInCents := 1, sequence := 1 }],
    playedEvents :=
      [{ accountID := 1, sequence := -9223372036854775808, runningBalance := 1 }] }

/-- C10: `Play` checks the signed-wraparound guards before the increments of
the same iteration, so with the account counter at `2^63 - 1` a single valid
operation succeeds and returns a played account whose counter is negative;
the `AccountOpLimit` rejection only appears on a later call that starts from
the already-negative counter. -/
theorem claim_C10 :
    Account.Play c10Account {} [c10Operation] = PlayResult.ok c10Outcome ∧
    c10Outcome.playedAccount.lastPlayedSequence < 0 ∧
    Account.Play c10Outcome.playedAccount {} [c10Operation] =
      PlayResult.err PlayError.accountOpLimit := by
  decide

instance stepsOK_decidable :
    ∀ (s : PlayState) (operations : List Operation), Decidable (stepsOK s operations)
  | _, [] => Decidable.isTrue trivial
  | s, op :: rest => @instDecidableAnd _ _ _ (stepsOK_decidable (nextState s op) rest)

/-- Running the loop past a prefix whose steps all pass reaches the folded
state, with the prefix's operations and events appended to the
accumulators. -/
theorem playLoop_prefix (accountID : Nat) :
    ∀ (pre : List Operation) (pa : Account) (pt : Transaction)
      (tail accOps : List Operation) (accEvents : List Event),
      stepsOK (pa, pt) pre →
      playLoop accountID pa pt (pre ++ tail) accOps accEvents =
        playLoop accountID (runOps (pa, pt) pre).1 (runOps (pa, pt) pre).2 tail
          (accOps ++ playedOpsSpec (pa, pt) pre)
          (accEvents ++ playedEventsSpec accountID (pa, pt) pre)
  | [], pa, pt, tail, accOps, accEvents, _ => by
      simp [runOps, playedOpsSpec, playedEventsSpec]
  | op :: rest, pa, pt, tail, accOps, accEvents, h => by
      obtain ⟨h1, h2⟩ := h
      rw [List.cons_append,
        playLoop_cons_ok accountID (pa, pt) op (rest ++ tail) accOps accEvents h1]
      have IH := playLoop_prefix accountID rest (nextState (pa, pt) op).1
        (nextState (pa, pt) op).2 tail
        (accOps ++ [{ op with sequence := (nextState (pa, pt) op).2.lastPlayedSequence }])
        (accEvents ++ [mkEvent accountID (nextState (pa, pt) op)]) (by simpa using h2)
      rw [IH]
      have hrun : runOps (pa, pt) (op :: rest) =
          runOps ((nextState (pa, pt) op).1, (nextState (pa, pt) op).2) rest := by
        simp [runOps]
      rw [hrun]
      simp [playedOpsSpec, playedEventsSpec]

/-- C3: when the prefix before index k passes every check and the operation at
index k first drives the post-delta running balance below zero, `Play`
rejects with `NegativeBalance`; when the post-delta balance is fine but the
transaction's held amount goes negative at k, it rejects with `NegativeHold`
(the balance check takes precedence within the same operation).  In both
cases the operations after index k do not affect the result, and the
rejection value carries no played state (Go returns the zero-valued
`PlayedOutcome{}`). -/
theorem claim_C3 (account : Account) (transaction : Transaction)
    (pre : List Operation) (op : Operation) (post : List Operation)
    (hOK : stepsOK (account, transaction) pre)
    (hty : (op.Type).isSome) :
    ((deltaOp (runOps (account, transaction) pre) op).1.runningBalance < 0 →
      account.Play transaction (pre ++ op :: post) =
          PlayResult.err PlayError.negativeBalance ∧
      account.Play transaction (pre ++ [op]) =
          PlayResult.err PlayError.negativeBalance) ∧
    (0 ≤ (deltaOp (runOps (account, transaction) pre) op).1.runningBalance →
      (deltaOp (runOps (account, transaction) pre) op).2.heldAmountInCents < 0 →
      account.Play transaction (pre ++ op :: post) =
          PlayResult.err PlayError.negativeHold ∧
      account.Play transaction (pre ++ [op]) =
          PlayResult.err PlayError.negativeHold) := by
  have hsplit1 := playLoop_prefix account.accountID pre account transaction
    (op :: post) [] [] hOK
  have hsplit2 := playLoop_prefix account.accountID pre account transaction
    [op] [] [] hOK
  constructor
  · intro hb
    have hstep := playStep_negativeBalance account.accountID
      (runOps (account, transaction) pre) op hty hb
    constructor
    · show playLoop account.accountID account transaction (pre ++ op :: post) [] [] = _
      rw [hsplit1]
      exact playLoop_cons_err account.accountID (runOps (account, transaction) pre)
        op post _ _ _ hstep
    · show playLoop account.accountID account transaction (pre ++ [op]) [] [] = _
      rw [hsplit2]
      exact playLoop_cons_err account.accountID (runOps (account, transaction) pre)
        op [] _ _ _ hstep
  · intro hb hh
    have hstep := playStep_negativeHold account.accountID
      (runOps (account, transaction) pre) op hty hb hh
    constructor
    · show playLoop account.accountID account transaction (pre ++ op :: post) [] [] = _
      rw [hsplit1]
      exact playLoop_cons_err account.accountID (runOps (account, transaction) pre)
        op post _ _ _ hstep
    · show playLoop account.accountID account transaction (pre ++ [op]) [] [] = _
      rw [hsplit2]
      exact playLoop_cons_err account.accountID (runOps (account, transaction) pre)
        op [] _ _ _ hstep

def c3wPre : List Operation := [{ operationType := "CREDIT", amountInCents := 50 }]

def c3wOperation : Operation := { operationType := "DEBIT", amountInCents := 100 }

def c3wPost : List Operation := [{ operationType := "CREDIT", amountInCents := 100 }]

/-- Witness for C3: a CREDIT 50 prefix passes, the DEBIT 100 at index 1
drives the balance to -50, and the rejection ignores the trailing
CREDIT 100. -/
theorem claim_C3_witness :
    Account.Play {} {} (c3wPre ++ c3wOperation :: c3wPost) =
        PlayResult.err PlayError.negativeBalance ∧
    Account.Play {} {} (c3wPre ++ [c3wOperation]) =
        PlayResult.err PlayError.negativeBalance :=
  (claim_C3 {} {} c3wPre c3wOperation c3wPost (by decide) (by decide)).1 (by decide)

/-- C4: whenever playback returns a `NegativeBalance` or `NegativeHold`
rejection, the handler responds with the structured 422 business body
carrying the rejection reason and the pre-apply account (and the pre-apply
transaction when one was loaded, i.e. when `transaction_id ≠ 0`), does not
commit, issues no write primitive (only the lock and, on the existing path,
the transaction read), and leaves the store unchanged. -/
theorem claim_C4 (s : Store) (req : executeOperationsRequest)
    (account : Account)
    (hv : requestValidationError req = none)
    (hl : LockAccountWithContext s req.accountID = some account) :
    (∀ (transaction : Transaction) (e : PlayError),
      req.transactionID ≠ 0 →
      GetTransactionWithContext s req.tenant req.transactionID = some transaction →
      account.Play transaction (requestOperations req) = PlayResult.err e →
      (e = PlayError.negativeBalance ∨ e = PlayError.negativeHold) →
      HandleExecuteOperationsWithContext s req =
        { response := HandlerResponse.business
            { error := "error playing operations: " ++ e.goMessage,
              account := account, transaction := transaction },
          committed := false,
          calls := [StoreCall.lockAccount req.accountID,
            StoreCall.getTransaction req.tenant req.transactionID],
          store := s }) ∧
    (∀ (e : PlayError),
      req.transactionID = 0 →
      account.Play { accountID := req.accountID, tenant := req.tenant }
          (requestOperations req) = PlayResult.err e →
      (e = PlayError.negativeBalance ∨ e = PlayError.negativeHold) →
      HandleExecuteOperationsWithContext s req =
        { response := HandlerResponse.business
            { error := "error playing operations: " ++ e.goMessage,
              account := account },
          committed := false,
          calls := [StoreCall.lockAccount req.accountID],
          store := s }) := by
  constructor
  · intro transaction e hne hget hplay he
    unfold HandleExecuteOperationsWithContext
    rw [hv]
    simp only [hl, hget, hne, if_true, ne_eq, not_false_iff, if_pos]
    unfold processExistingTransaction
    rw [hplay]
    simp only [if_pos he]
  · intro e hz hplay he
    unfold HandleExecuteOperationsWithContext
    rw [hv]
    simp only [hl]
    rw [if_neg (by simp [hz])]
    simp only [processNewTransaction, hplay]
    simp only [if_pos he]

def c4wAccount : Account := { accountID := 1 }

def c4wTransaction : Transaction :=
  { transactionID := 7, tenant := "t", accountID := 1 }

def c4wStore : Store :=
  { accounts := [c4wAccount],
    transactions := [c4wTransaction],
    operations := [{
      tenant := "t", transactionID := 7, operationType := "CREDIT",
      amountInCents := 1, sequence := 1 }],
    nextTransactionID := 8 }

def c4wReq : executeOperationsRequest :=
  { accountID := 1, tenant := "t", transactionID := 7,
    operations := [{ operationType := "DEBIT", amountInCents := 5 }] }

/-- Witness for C4: a DEBIT against a zero balance on the existing-transaction
path yields the structured business rejection with no commit, no write and an
unchanged store. -/
theorem claim_C4_witness :
    HandleExecuteOperationsWithContext c4wStore c4wReq =
      { response := HandlerResponse.business
          { error := "error playing operations: " ++ PlayError.negativeBalance.goMessage,
            account := c4wAccount, transaction := c4wTransaction },
        committed := false,
        calls := [StoreCall.lockAccount c4wReq.accountID,
          StoreCall.getTransaction c4wReq.tenant c4wReq.transactionID],
        store := c4wStore } :=
  (claim_C4 c4wStore c4wReq c4wAccount (by decide) (by decide)).1
    c4wTransaction PlayError.negativeBalance (by decide) (by decide) (by decide)
    (Or.inl rfl)

/-- Store and request exhibiting C9: the transaction with identifier 7 under
tenant x belongs to account 2, but the request applies it against account
1. -/
def c9AccountOne : Account := { accountID := 1, userARI := "a", runningBalance := 100 }

def c9AccountTwo : Account := { accountID := 2, userARI := "b" }

def c9Transaction : Transaction :=
  { transactionID := 7, tenant := "x", accountID := 2, lastPlayedSequence := 1 }

def c9Store : Store :=
  { accounts := [c9AccountOne, c9AccountTwo],
    transactions := [c9Transaction],
    operations := [{
      tenant := "x", transactionID := 7, operationType := "CREDIT",
      amountInCents := 3, sequence := 1 }],
    nextTransactionID := 8 }

def c9Req : executeOperationsRequest :=
  { accountID := 1, tenant := "x", transactionID := 7,
    operations := [{ operationType := "CREDIT", amountInCents := 5 }] }

def c9PlayedAccount : Account :=
  { accountID := 1, userARI := "a", lastPlayedSequence := 1, runningBalance := 105 }

/-- C9: the coordinator loads the transaction by tenant and transaction
identifier only — the loaded transaction belongs to account 2 while account 1
was locked, no account-ownership check rejects the apply, and the operations
play and persist against account 1, updating its balance and sequence from
the foreign transaction's batch. -/
theorem claim_C9 :
    GetTransactionWithContext c9Store c9Req.tenant c9Req.transactionID =
        some c9Transaction ∧
    c9Transaction.accountID ≠ c9Req.accountID ∧
    (HandleExecuteOperationsWithContext c9Store c9Req).committed = true ∧
    (HandleExecuteOperationsWithContext c9Store c9Req).response =
      HandlerResponse.success
        { account := c9PlayedAccount,
          transaction := { c9Transaction with
            creditedAmountInCents := 5,
            lastPlayedSequence := 2 } } ∧
    LockAccountWithContext (HandleExecuteOperationsWithContext c9Store c9Req).store
        c9Req.accountID = some c9PlayedAccount := by
  decide

/-- Normal form of the shared persistence loop: every operation but the last
goes through `AddOperationToTransactionWithContext` and the last through
`AddOperationAndUpdateTransactionWithContext`. -/
theorem persistTailCalls_append (txn : Transaction) :
    ∀ (mid : List (Operation × Event)) (zl : Operation × Event),
      persistTailCalls txn (mid ++ [zl]) =
        mid.map (fun z => StoreCall.addOperationToTransaction txn z.1 z.2) ++
          [StoreCall.addOperationAndUpdateTransaction txn zl.1 zl.2]
  | [], zl => rfl
  | z :: rest, zl => by
      cases rest with
      | nil => rfl
      | cons z2 rest2 =>
          have IH := persistTailCalls_append txn (z2 :: rest2) zl
          calc persistTailCalls txn ((z :: z2 :: rest2) ++ [zl]) =
              StoreCall.addOperationToTransaction txn z.1 z.2 ::
                persistTailCalls txn ((z2 :: rest2) ++ [zl]) := rfl
            _ = _ := by rw [IH]; simp

/-- C6: write order of a successful apply.  On the new-transaction path, a
single played operation goes through `create_transaction_with_first_op`
alone (no final flush), while two or more operations go create, then
`append_op` for the middle, then `append_op_and_update_txn` for the last; on
the existing-transaction path every non-final operation goes through
`append_op` and the final one (also when it is the only one) through
`append_op_and_update_txn`; in both cases exactly one `update_account` with
the played account follows. -/
theorem claim_C6 (s : Store) (req : executeOperationsRequest)
    (account : Account) (transaction : Transaction) (po : PlayedOutcome) :
    (account.Play { accountID := req.accountID, tenant := req.tenant }
        (requestOperations req) = PlayResult.ok po →
      (∀ z : Operation × Event,
        po.playedOperations.zip po.playedEvents = [z] →
        processNewTransaction s req account =
          Except.ok
            ({ account := po.playedAccount,
               transaction :=
                 { po.playedTransaction with transactionID := s.nextTransactionID } },
             [StoreCall.createTransactionAndOperation po.playedTransaction z.1 z.2,
              StoreCall.updateAccount po.playedAccount],
             applyCalls s
               [StoreCall.createTransactionAndOperation po.playedTransaction z.1 z.2,
                StoreCall.updateAccount po.playedAccount])) ∧
      (∀ (z0 : Operation × Event) (mid : List (Operation × Event))
         (zl : Operation × Event),
        po.playedOperations.zip po.playedEvents = z0 :: mid ++ [zl] →
        processNewTransaction s req account =
          Except.ok
            ({ account := po.playedAccount,
               transaction :=
                 { po.playedTransaction with transactionID := s.nextTransactionID } },
             StoreCall.createTransactionAndOperation po.playedTransaction z0.1 z0.2 ::
               mid.map (fun z => StoreCall.addOperationToTransaction
                 { po.playedTransaction with transactionID := s.nextTransactionID }
                 z.1 z.2) ++
               [StoreCall.addOperationAndUpdateTransaction
                  { po.playedTransaction with transactionID := s.nextTransactionID }
                  zl.1 zl.2,
                StoreCall.updateAccount po.playedAccount],
             applyCalls s
               (StoreCall.createTransactionAndOperation po.playedTransaction z0.1 z0.2 ::
                 mid.map (fun z => StoreCall.addOperationToTransaction
                   { po.playedTransaction with transactionID := s.nextTransactionID }
                   z.1 z.2) ++
                 [StoreCall.addOperationAndUpdateTransaction
                    { po.playedTransaction with transactionID := s.nextTransactionID }
                    zl.1 zl.2,
                  StoreCall.updateAccount po.playedAccount])))) ∧
    (account.Play transaction (requestOperations req) = PlayResult.ok po →
      ∀ (mid : List (Operation × Event)) (zl : Operation × Event),
        po.playedOperations.zip po.playedEvents = mid ++ [zl] →
        processExistingTransaction s req account transaction =
          Except.ok
            ({ account := po.playedAccount, transaction := po.playedTransaction },
             mid.map (fun z => StoreCall.addOperationToTransaction
                 po.playedTransaction z.1 z.2) ++
               [StoreCall.addOperationAndUpdateTransaction po.playedTransaction
                  zl.1 zl.2,
                StoreCall.updateAccount po.playedAccount],
             applyCalls s
               (mid.map (fun z => StoreCall.addOperationToTransaction
                   po.playedTransaction z.1 z.2) ++
                 [StoreCall.addOperationAndUpdateTransaction po.playedTransaction
                    zl.1 zl.2,
                  StoreCall.updateAccount po.playedAccount]))) := by
  constructor
  · intro hplay
    constructor
    · intro z hz
      simp only [processNewTransaction, hplay, hz]
      rfl
    · intro z0 mid zl hz
      simp only [processNewTransaction, hplay, hz, List.cons_append]
      rw [persistTailCalls_append]
      simp [List.append_assoc]
  · intro hplay mid zl hz
    simp only [processExistingTransaction, hplay, hz]
    rw [persistTailCalls_append]
    simp [List.append_assoc]

def c6wReq : executeOperationsRequest :=
  { accountID := 3, tenant := "w", transactionID := 0,
    operations := [{ operationType := "CREDIT", amountInCents := 5 },
      { operationType := "DEBIT", amountInCents := 5 }] }

def c6wOutcome : PlayedOutcome :=
  { playedAccount := { lastPlayedSequence := 2 },
    playedTransaction :=
      { tenant := "w", accountID := 3, debitedAmountInCents := 5,
        creditedAmountInCents := 5, lastPlayedSequence := 2 },
    playedOperations :=
      [{ operationType := "CREDIT", amountInCents := 5, sequence := 1 },
       { operationType := "DEBIT", amountInCents := 5, sequence := 2 }],
    playedEvents :=
      [{ sequence := 1, runningBalance := 5 },
       { sequence := 2, runningBalance := 0 }] }

def c6xReq : executeOperationsRequest :=
  { accountID := 3, tenant := "w", transactionID := 9,
    operations := [{ operationType := "CREDIT", amountInCents := 4 }] }

def c6xTransaction : Transaction :=
  { transactionID := 9, tenant := "w", accountID := 3 }

def c6xOutcome : PlayedOutcome :=
  { playedAccount := { lastPlayedSequence := 1, runningBalance := 4 },
    playedTransaction :=
      { transactionID := 9, tenant := "w", accountID := 3,
        creditedAmountInCents := 4, lastPlayedSequence := 1 },
    playedOperations := [{ operationType := "CREDIT", amountInCents := 4, sequence := 1 }],
    playedEvents := [{ sequence := 1, runningBalance := 4 }] }

/-- Witness for C6: a two-operation new-transaction apply persists create,
final flush, account update in order; a one-operation existing-transaction
apply persists the flush then the account update. -/
theorem claim_C6_witness :
    processNewTransaction {} c6wReq {} =
      Except.ok
        ({ account := c6wOutcome.playedAccount,
           transaction :=
             { c6wOutcome.playedTransaction with
               transactionID := ({} : Store).nextTransactionID } },
         [StoreCall.createTransactionAndOperation c6wOutcome.playedTransaction
            (c6wOutcome.playedOperations.get ⟨0, by decide⟩)
            (c6wOutcome.playedEvents.get ⟨0, by decide⟩),
          StoreCall.addOperationAndUpdateTransaction
            { c6wOutcome.playedTransaction with
              transactionID := ({} : Store).nextTransactionID }
            (c6wOutcome.playedOperations.get ⟨1, by decide⟩)
            (c6wOutcome.playedEvents.get ⟨1, by decide⟩),
          StoreCall.updateAccount c6wOutcome.playedAccount],
         applyCalls {}
           [StoreCall.createTransactionAndOperation c6wOutcome.playedTransaction
              (c6wOutcome.playedOperations.get ⟨0, by decide⟩)
              (c6wOutcome.playedEvents.get ⟨0, by decide⟩),
            StoreCall.addOperationAndUpdateTransaction
              { c6wOutcome.playedTransaction with
                transactionID := ({} : Store).nextTransactionID }
              (c6wOutcome.playedOperations.get ⟨1, by decide⟩)
              (c6wOutcome.playedEvents.get ⟨1, by decide⟩),
            StoreCall.updateAccount c6wOutcome.playedAccount]) ∧
    processExistingTransaction {} c6xReq {} c6xTransaction =
      Except.ok
        ({ account := c6xOutcome.playedAccount,
           transaction := c6xOutcome.playedTransaction },
         [StoreCall.addOperationAndUpdateTransaction c6xOutcome.playedTransaction
            (c6xOutcome.playedOperations.get ⟨0, by decide⟩)
            (c6xOutcome.playedEvents.get ⟨0, by decide⟩),
          StoreCall.updateAccount c6xOutcome.playedAccount],
         applyCalls {}
           [StoreCall.addOperationAndUpdateTransaction c6xOutcome.playedTransaction
              (c6xOutcome.playedOperations.get ⟨0, by decide⟩)
              (c6xOutcome.playedEvents.get ⟨0, by decide⟩),
            StoreCall.updateAccount c6xOutcome.playedAccount]) :=
  ⟨((claim_C6 {} c6wReq {} {} c6wOutcome).1 (by decide)).2
      (c6wOutcome.playedOperations.get ⟨0, by decide⟩,
        c6wOutcome.playedEvents.get ⟨0, by decide⟩) []
      (c6wOutcome.playedOperations.get ⟨1, by decide⟩,
        c6wOutcome.playedEvents.get ⟨1, by decide⟩) (by decide),
   (claim_C6 {} c6xReq {} c6xTransaction c6xOutcome).2 (by decide) []
      (c6xOutcome.playedOperations.get ⟨0, by decide⟩,
        c6xOutcome.playedEvents.get ⟨0, by decide⟩) (by decide)⟩

/-- C7 (amended): the request boundary does not reject unknown operation-type
strings — its per-operation validation only checks that the string is
non-empty and the amount positive — so such an operation reaches the playback
engine, and it is `Play` (through `Operation.Type`) that rejects the batch
with the unknown-operation-type error, which the handler surfaces as a 500
server error rather than an input-validation 400. -/
theorem claim_C7 :
    (∀ req : executeOperationsRequest,
      req.tenant ≠ "" → req.operations ≠ [] →
      (∀ op ∈ req.operations, op.operationType ≠ "" ∧ 0 < op.amountInCents) →
      requestValidationError req = none) ∧
    (∀ (account : Account) (transaction : Transaction) (op : Operation)
       (rest : List Operation),
      op.Type = none →
      account.Play transaction (op :: rest) = PlayResult.err PlayError.typeError) := by
  constructor
  · intro req h1 h2 h3
    unfold requestValidationError
    rw [if_neg h1, if_neg (by simpa [List.isEmpty_iff] using h2)]
    rw [if_neg ?_]
    simp only [List.any_eq_true, not_exists]
    intro op
    simp only [not_and]
    intro hmem hp
    obtain ⟨hty, hamt⟩ := h3 op hmem
    simp only [Bool.or_eq_true, beq_iff_eq, decide_eq_true_eq] at hp
    rcases hp with hp | hp
    · exact hty hp
    · omega
  · intro account transaction op rest hty
    show playLoop account.accountID account transaction (op :: rest) [] [] = _
    refine playLoop_cons_err account.accountID (account, transaction) op rest [] []
      PlayError.typeError ?_
    simp only [playStep, hty]

def c7Store : Store := { accounts := [{ accountID := 1 }] }

def c7Req : executeOperationsRequest :=
  { accountID := 1, tenant := "t", transactionID := 0,
    operations := [{ operationType := "FOO", amountInCents := 5 }] }

/-- C7 counterexample: an operation with the unknown type string FOO passes
the request boundary's validation (no 400 input-validation rejection), the
handler locks the account and invokes the engine, and the unknown type is
rejected inside `Play`, surfacing as a 500 — contradicting the claim that
such a request is rejected at the boundary and never reaches playback. -/
theorem claim_C7_counterexample :
    requestValidationError c7Req = none ∧
    Account.Play { accountID := 1 }
        { accountID := 1, tenant := "t" }
        (requestOperations c7Req) = PlayResult.err PlayError.typeError ∧
    HandleExecuteOperationsWithContext c7Store c7Req =
      { response := HandlerResponse.httpError 500
          ("error processing operations: error playing operations: " ++
            PlayError.typeError.goMessage),
        committed := false,
        calls := [StoreCall.lockAccount 1],
        store := c7Store } := by
  decide

/-- Witness for C7: the validation acceptance and the engine-side rejection,
each at a concrete input. -/
theorem claim_C7_witness :
    requestValidationError
        { accountID := 2, tenant := "u", transactionID := 0,
          operations := [{ operationType := "BAR", amountInCents := 9 }] } = none ∧
    Account.Play {} {} [{ operationType := "BAR", amountInCents := 9 }] =
      PlayResult.err PlayError.typeError :=
  ⟨claim_C7.1 _ (by decide) (by decide) (by decide),
   claim_C7.2 {} {} { operationType := "BAR", amountInCents := 9 } [] (by decide)⟩

/-- C8 (amended): the request adapter performs no validation of `account_id`
at all — any request that passes the tenant/operations checks reaches the
store, the first primitive invoked is always the account row lock with the
request's `account_id` (including 0, the decoding of an absent field), and a
missing account surfaces as a 500 store error, not a 400 input-validation
error. -/
theorem claim_C8 (s : Store) (req : executeOperationsRequest)
    (hv : requestValidationError req = none) :
    (HandleExecuteOperationsWithContext s req).calls.head? =
        some (StoreCall.lockAccount req.accountID) ∧
    (LockAccountWithContext s req.accountID = none →
      HandleExecuteOperationsWithContext s req =
        { response := HandlerResponse.httpError 500
            "error executing database operations",
          committed := false,
          calls := [StoreCall.lockAccount req.accountID],
          store := s }) := by
  constructor
  · unfold HandleExecuteOperationsWithContext
    rw [hv]
    cases hL : LockAccountWithContext s req.accountID with
    | none => simp only [hL]; rfl
    | some account =>
        simp only [hL]
        by_cases ht : req.transactionID ≠ 0
        · rw [if_pos ht]
          cases hG : GetTransactionWithContext s req.tenant req.transactionID with
          | none => simp only [hG]; rfl
          | some transaction =>
              simp only [hG]
              cases hP : processExistingTransaction s req account transaction with
              | error e => simp only [hP]; split_ifs <;> rfl
              | ok v =>
                  obtain ⟨r, calls, s2⟩ := v
                  simp only [hP]; rfl
        · rw [if_neg ht]
          cases hP : processNewTransaction s req account with
          | error e => simp only [hP]; split_ifs <;> rfl
          | ok v =>
              obtain ⟨r, calls, s2⟩ := v
              simp only [hP]; rfl
  · intro h
    unfold HandleExecuteOperationsWithContext
    rw [hv]
    simp only [h]

def c8Req : executeOperationsRequest :=
  { accountID := 0, tenant := "t", transactionID := 0,
    operations := [{ operationType := "CREDIT", amountInCents := 1 }] }

/-- C8 counterexample: a request whose `account_id` is 0 (or absent) passes
input validation, the lock store primitive is invoked with account 0, and the
handler answers 500 — contradicting the claimed 400 rejection before any
store primitive. -/
theorem claim_C8_counterexample :
    requestValidationError c8Req = none ∧
    HandleExecuteOperationsWithContext {} c8Req =
      { response := HandlerResponse.httpError 500
          "error executing database operations",
        committed := false,
        calls := [StoreCall.lockAccount 0],
        store := {} } := by
  decide

def c8wReq : executeOperationsRequest :=
  { accountID := 0, tenant := "u", transactionID := 0,
    operations := [{ operationType := "DEBIT", amountInCents := 2 }] }

/-- Witness for C8 at `account_id = 0` against an empty store. -/
theorem claim_C8_witness :
    (HandleExecuteOperationsWithContext {} c8wReq).calls.head? =
        some (StoreCall.lockAccount c8wReq.accountID) ∧
    HandleExecuteOperationsWithContext {} c8wReq =
      { response := HandlerResponse.httpError 500
          "error executing database operations",
        committed := false,
        calls := [StoreCall.lockAccount c8wReq.accountID],
        store := {} } :=
  ⟨(claim_C8 {} c8wReq (by decide)).1,
   (claim_C8 {} c8wReq (by decide)).2 (by decide)⟩
